import Mathlib

/-!
Verification of the LINA backend request-gating and quota/subscription logic.

The repository contains several near-duplicate Express backends.  The gate
logic relevant here lives in three places:

* `server.js` (first document): JWT auth middleware `requireAuth`, in-memory
  `users : Map email -> {email, paid, quota, used}`, endpoints
  `POST /api/auth/register-trial`, `POST /api/auth/login`, `POST /api/ask`.
* `src/unnamed/part_002` (second document): stateless trial-token variant,
  endpoints `POST /api/register` and `POST /api/ask` where the quota lives
  inside the signed token payload.
* `src/unnamed/part_003`: quota plus Bold subscription variant, in-memory
  `users : Map email -> {used, subUntil}`, endpoints `POST /auth/register`,
  `POST /api/ask`, `POST /payments/subscribe` (mock mode) and
  `POST /webhooks/bold`.

Each JS handler is embedded as a pure Lean function from its inputs (request
fields, current ledger, current time in ms, outcome of the external model
call) to the new ledger and the HTTP response.  The external model call is
abstracted by `RelayResult`: `ok text` stands for a completion whose extracted
reply text is `text` (including the fallback string the code substitutes for
an empty completion), `err s` stands for the completion client throwing an
error object whose `status` field is `s` (absent status is `Option.none`,
matching the JS `err?.status ?? 500`).  JSON-web-token signing and
verification are modelled symbolically: a well-formed signed token is a
payload together with the secret it was signed with and its expiry time;
verification succeeds exactly when the secrets agree and the token is not
expired.  A missing or syntactically malformed bearer credential is a
separate constructor, so that jwt.verify throwing on garbage is covered.
-/

/-! ## String helpers (trim, lowercase, slice), as used by the JS code -/

/-- Embedding of the JS `String.prototype.trim`: drop whitespace from both
ends of the string. -/
def strTrim (s : String) : String :=
  String.mk (((s.data.dropWhile Char.isWhitespace).reverse.dropWhile Char.isWhitespace).reverse)

/-- Embedding of `String.prototype.toLowerCase` (ASCII case folding, which is
all the code relies on for email normalization). -/
def strLower (s : String) : String :=
  String.mk (s.data.map Char.toLower)

/-- Embedding of `String.prototype.toUpperCase` (ASCII case folding). -/
def strUpper (s : String) : String :=
  String.mk (s.data.map Char.toUpper)

/-- Embedding of the JS `String.prototype.slice(0, n)`. -/
def strTake (s : String) (n : Nat) : String :=
  String.mk (s.data.take n)

/-- Whether the string contains the character, as in JS `includes`. -/
def strHasChar (s : String) (c : Char) : Bool :=
  s.data.any (fun d => d == c)

/-- The email normalization used by both `server.js` and `part_003`:
`String(e).trim().toLowerCase()`. -/
def normalizeEmail (e : String) : String :=
  strLower (strTrim e)

/-- Embedding of the email test regex of `server.js`
(`/^\S+@\S+\.\S+$/`): the whole string is whitespace-free and can be split as
`a ++ "@" ++ b ++ "." ++ c` with `a`, `b`, `c` nonempty; equivalently there is
an occurrence of the at sign at an index `i ≥ 1` and an occurrence of the dot
at an index `j` with `i + 2 ≤ j` and `j + 2 ≤ length`. -/
def emailShape (s : String) : Bool :=
  let l := s.data
  let n := l.length
  (l.all (fun c => !c.isWhitespace)) &&
    ((List.range n).any (fun i =>
      (List.range n).any (fun j =>
        decide (1 ≤ i) && decide (i + 2 ≤ j) && decide (j + 2 ≤ n) &&
          (l.getD i ' ' == '@') && (l.getD j ' ' == '.'))))

/-! ## Association-list embedding of the in-memory `Map` -/

/-- Lookup in an association list, mirroring `Map.prototype.get`. -/
def mget {α : Type} : List (String × α) → String → Option α
  | [], _ => Option.none
  | (k', v) :: rest, k => if k' == k then some v else mget rest k

/-- Update or insert in an association list, mirroring `Map.prototype.set`
(and the in-place mutation of a record obtained from `Map.prototype.get`). -/
def mset {α : Type} : List (String × α) → String → α → List (String × α)
  | [], k, v => [(k, v)]
  | (k', v') :: rest, k, v =>
      if k' == k then (k, v) :: rest else (k', v') :: mset rest k v

/-! ## Tokens and the external model call -/

/-- The payload that `server.js` signs into its JWTs:
`{ email, paid, quota, used }` (`signToken` at lines 41-43, used by the
register, login and ask endpoints).  Only the `email` field is read back by
the server; the counters are an advisory snapshot. -/
structure JwtPayload where
  email : String
  paid : Bool
  quota : Nat
  used : Nat
deriving DecidableEq

/-- The payload of the stateless trial tokens of `part_002`
(`signTrialToken`): `{ uid, email, remaining, plan }`.  The `remaining`
field arrives from JSON; it is modelled as an integer (the code guards with
`Number.isFinite`, which always holds for an integer). -/
structure TrialUser where
  uid : String
  email : String
  remaining : Int
  plan : String
deriving DecidableEq

/-- A bearer credential as seen by the auth middlewares.  `missing` is an
absent or non-`Bearer` Authorization header; `malformed` is a present token
that jwt.verify rejects as garbage; `signed p secret exp` is a well-formed
token over payload `p`, signed with `secret`, expiring at time `exp` (ms). -/
inductive Cred (π : Type) where
  | missing : Cred π
  | malformed : Cred π
  | signed : π → String → Nat → Cred π
deriving DecidableEq

/-- Symbolic `jwt.verify(token, secret)` at time `t`: succeeds exactly when
the token is well formed, the signing secret matches, and the token has not
expired. -/
def authCheck {π : Type} (c : Cred π) (secret : String) (t : Nat) : Option π :=
  match c with
  | Cred.missing => Option.none
  | Cred.malformed => Option.none
  | Cred.signed p s e => if s == secret && decide (t < e) then some p else Option.none

/-- Outcome of the external completion call (the Completion Relay).
`ok text` is a resolved call whose extracted reply text is `text`;
`err s` is a rejected call throwing an error whose `status` field is `s`. -/
inductive RelayResult where
  | ok : String → RelayResult
  | err : Option Nat → RelayResult
deriving DecidableEq

/-! ## HTTP responses

One record covers the response bodies of all embedded endpoints; fields not
present in a given JSON body are `Option.none`.  The JS `message` and `reply`
body fields are both carried by `reply`. -/

structure Resp where
  status : Nat
  ok : Option Bool := Option.none
  code : Option String := Option.none
  reply : Option String := Option.none
  emailOut : Option String := Option.none
  paid : Option Bool := Option.none
  quota : Option Nat := Option.none
  used : Option Nat := Option.none
  remaining : Option Nat := Option.none
  subscribed : Option Bool := Option.none
  subUntil : Option Nat := Option.none
  tok : Option JwtPayload := Option.none
  tok3 : Option String := Option.none
  refreshTok : Option TrialUser := Option.none
deriving DecidableEq

/-! ## `server.js`: JWT auth plus in-memory ledger variant -/

/-- A `server.js` user record: `{ email, paid, quota, used, updatedAt }`
(the `updatedAt` timestamp is write-only in the code and is omitted). -/
structure UserRec where
  email : String
  paid : Bool
  quota : Nat
  used : Nat
deriving DecidableEq

/-- The in-memory `users` map of `server.js`. -/
abbrev LedgerS := List (String × UserRec)

/-- The 400 response of the register and login endpoints of `server.js`. -/
def emailInvalidRespS : Resp := { status := 400, reply := some "Email inválido" }

/-- The success body shared by register-trial and login in `server.js`:
`{ email, paid, quota, used, remaining, token }` with
`remaining = Math.max(0, quota - used)`. -/
def regRespS (u : UserRec) : Resp :=
  { status := 200, emailOut := some u.email, paid := some u.paid,
    quota := some u.quota, used := some u.used,
    remaining := some (u.quota - u.used),
    tok := some ⟨u.email, u.paid, u.quota, u.used⟩ }

/-- `POST /api/auth/register-trial` of `server.js` (lines 51-74): normalize
the email, reject anything failing the regex, then get-or-create the record
(`{ paid: false, quota: 5, used: 0 }` when absent) and answer with the
current state plus a fresh token.  An existing record is never mutated. -/
def registerTrial (m : LedgerS) (rawEmail : String) : LedgerS × Resp :=
  let email := normalizeEmail rawEmail
  if email == "" || !emailShape email then (m, emailInvalidRespS)
  else
    let mu : LedgerS × UserRec :=
      match mget m email with
      | some u => (m, u)
      | Option.none =>
          let u : UserRec := ⟨email, false, 5, 0⟩
          (mset m email u, u)
    (mu.fst, regRespS mu.snd)

/-- `POST /api/auth/login` of `server.js` (lines 77-97); its body is
line-for-line the same get-or-create logic as register-trial. -/
def loginS (m : LedgerS) (rawEmail : String) : LedgerS × Resp :=
  registerTrial m rawEmail

/-- The 401 responses of the `requireAuth` middleware (lines 100-111):
no token at all versus a token jwt.verify rejects. -/
def authFailResp {π : Type} (c : Cred π) : Resp :=
  match c with
  | Cred.missing => { status := 401, reply := some "Falta token" }
  | _ => { status := 401, reply := some "Token inválido" }

/-- The 402 quota-denial body of `server.js /api/ask` (lines 144-150). -/
def paywallRespS : Resp :=
  { status := 402, ok := some false, code := some "trial_exhausted",
    reply := some "Has usado tus 5 preguntas gratis. Suscríbete para continuar." }

/-- `POST /api/ask` of `server.js` (lines 133-188), composed with
`requireAuth`.  Order of checks as in the code: authentication, record
lookup, non-empty trimmed message, quota (`!u.paid && u.used >= u.quota`),
then the completion call; on success the counter is incremented (unpaid
users only) and a refreshed token issued; the catch branch maps a 429 from
the provider to 429 and everything else to 500, touching no state. -/
def askServer (c : Cred JwtPayload) (secret : String) (t : Nat)
    (m : LedgerS) (message : String) (relay : RelayResult) : LedgerS × Resp :=
  match authCheck c secret t with
  | Option.none => (m, authFailResp c)
  | some p =>
    match mget m p.email with
    | Option.none => (m, { status := 401, reply := some "Sesión inválida" })
    | some u =>
      let msg := strTrim message
      if msg == "" then (m, { status := 400, reply := some "Debes enviar message" })
      else if !u.paid && decide (u.quota ≤ u.used) then (m, paywallRespS)
      else
        match relay with
        | RelayResult.err s =>
            if s.getD 500 == 429 then
              (m, { status := 429, ok := some false,
                    reply := some "Límite de modelo o crédito agotado. Intenta luego." })
            else
              (m, { status := 500, ok := some false,
                    reply := some "Error generando respuesta." })
        | RelayResult.ok text =>
            let u2 : UserRec := if u.paid then u else ⟨u.email, u.paid, u.quota, u.used + 1⟩
            (mset m p.email u2,
             { status := 200, ok := some true, reply := some text,
               remaining := some (u2.quota - u2.used),
               tok := some ⟨u2.email, u2.paid, u2.quota, u2.used⟩ })

/-! ## Operation sequences over the `server.js` ledger (for the quota
invariant): registrations, logins and chat requests. -/

inductive OpS where
  | reg : String → OpS
  | login : String → OpS
  | ask : Cred JwtPayload → Nat → String → RelayResult → OpS

/-- One operation against the `server.js` ledger. -/
def stepS (secret : String) (m : LedgerS) : OpS → LedgerS
  | OpS.reg e => (registerTrial m e).fst
  | OpS.login e => (loginS m e).fst
  | OpS.ask c t msg relay => (askServer c secret t m msg relay).fst

/-- Run a sequence of operations against the `server.js` ledger. -/
def runS (secret : String) (m : LedgerS) : List OpS → LedgerS
  | [] => m
  | op :: ops => runS secret (stepS secret m op) ops

/-- The quota invariant of the `server.js` ledger: no record has consumed
more than its quota. -/
def InvS (m : LedgerS) : Prop :=
  ∀ k u, mget m k = some u → u.used ≤ u.quota

/-! ## `part_003`: quota plus Bold subscription variant -/

/-- A `part_003` user record: `{ used: number, subUntil: number (ms) }`. -/
structure U3 where
  used : Nat
  subUntil : Nat
deriving DecidableEq

/-- The in-memory `users` map of `part_003`. -/
abbrev Ledger3 := List (String × U3)

/-- `const FREE_QUOTA = 5` of `part_003`. -/
def FREE_QUOTA : Nat := 5

/-- `const SUBSCRIPTION_DAYS = 30` of `part_003`. -/
def SUBSCRIPTION_DAYS : Nat := 30

/-- `addDays` of `part_003`: `now() + d * 24 * 60 * 60 * 1000`, with the
current time passed explicitly. -/
def addDays (t d : Nat) : Nat := t + d * 24 * 60 * 60 * 1000

/-- `ensureUser` of `part_003` (lines 58-61): get-or-create with
`{ used: 0, subUntil: 0 }`, returning the map after the possible insertion
together with the record. -/
def ensureUser (m : Ledger3) (email : String) : Ledger3 × U3 :=
  match mget m email with
  | some u => (m, u)
  | Option.none => (mset m email ⟨0, 0⟩, ⟨0, 0⟩)

/-- `isSubscribed` of `part_003` (lines 62-64): `u.subUntil && u.subUntil >
now()`; a zero `subUntil` is falsy and in any case not greater than `t`. -/
def isSubscribed (u : U3) (t : Nat) : Bool := decide (t < u.subUntil)

/-- `remainingFree` of `part_003` (lines 65-67):
`Math.max(0, FREE_QUOTA - (u.used || 0))`, which is truncated subtraction. -/
def remainingFree (u : U3) : Nat := FREE_QUOTA - u.used

/-- The 400 response of `POST /auth/register` of `part_003`. -/
def emailInvalidResp3 : Resp := { status := 400, ok := some false, code := some "EMAIL_INVALID" }

/-- The 402 paywall body of `part_003 /api/ask` (lines 130-136). -/
def paywallResp3 : Resp :=
  { status := 402, ok := some false, code := some "PAYWALL",
    reply := some "Has usado tus 5 preguntas gratis. Suscríbete para seguir usando LINA sin límites.",
    remaining := some 0, subscribed := some false }

/-- `POST /auth/register` of `part_003` (lines 91-107): trim and lowercase
the email, reject it when empty or lacking an at sign (note: no dot
requirement, unlike `server.js`), then get-or-create the record and answer
with a token plus the current state at time `t`. -/
def register3 (m : Ledger3) (rawEmail : String) (t : Nat) : Ledger3 × Resp :=
  let email := normalizeEmail rawEmail
  if email == "" || !strHasChar email '@' then (m, emailInvalidResp3)
  else
    let mu := ensureUser m email
    (mu.fst,
     { status := 200, ok := some true, tok3 := some email, emailOut := some email,
       subscribed := some (isSubscribed mu.snd t), subUntil := some mu.snd.subUntil,
       remaining := some (remainingFree mu.snd), quota := some FREE_QUOTA })

/-- `POST /api/ask` of `part_003` (lines 124-177), after the `auth`
middleware has bound `email`.  The code reads the clock separately before
and after the completion call, so the handler takes the admission-time clock
`t1` (the `isSubscribed` call at line 128) and the post-completion clock
`t2` (the `isSubscribed` calls at lines 157 and 166, which run back to
back).  Order of checks as in the code: paywall when not subscribed and no
free questions remain, then non-empty message (sliced to 4000 chars), then
the completion call; on success the counter is incremented exactly when the
user is not subscribed at `t2`, and the record written back; the catch
branch maps 429 to 429 and everything else to 500, touching no state beyond
the `ensureUser` insertion. -/
def ask3 (m : Ledger3) (email : String) (message : String)
    (t1 t2 : Nat) (relay : RelayResult) : Ledger3 × Resp :=
  let mu := ensureUser m email
  let m1 := mu.fst
  let u := mu.snd
  if !isSubscribed u t1 && (remainingFree u == 0) then (m1, paywallResp3)
  else
    let msg := strTake message 4000
    if msg == "" then (m1, { status := 400, ok := some false, code := some "EMPTY_MESSAGE" })
    else
      match relay with
      | RelayResult.err s =>
          if s.getD 500 == 429 then
            (m1, { status := 429, ok := some false,
                   reply := some "Muchas solicitudes o saldo insuficiente en la API." })
          else
            (m1, { status := 500, ok := some false,
                   reply := some "Error interno. Intenta de nuevo." })
      | RelayResult.ok text =>
          let u2 : U3 := if isSubscribed u t2 then u else ⟨u.used + 1, u.subUntil⟩
          (mset m1 email u2,
           { status := 200, ok := some true, reply := some text,
             remaining := some (remainingFree u2),
             subscribed := some (isSubscribed u2 t2) })

/-- `POST /payments/subscribe` of `part_003` in mock mode (lines 180-197,
`BOLD_TEST_API_KEY` absent): set `subUntil = now + 30 days` and leave `used`
alone. -/
def subscribeMock (m : Ledger3) (email : String) (t : Nat) : Ledger3 × Resp :=
  let mu := ensureUser m email
  let u2 : U3 := ⟨mu.snd.used, addDays t SUBSCRIPTION_DAYS⟩
  (mset mu.fst email u2,
   { status := 200, ok := some true,
     reply := some "Suscripción activada (mock) por 30 días.",
     subscribed := some true, subUntil := some u2.subUntil })

/-- Whether a list of characters is a nonempty run of decimal digits. -/
def allDigits (l : List Char) : Bool := !l.isEmpty && l.all Char.isDigit

/-- Split a character list around its last underscore, returning the parts
before and after it. -/
def splitLastUS : List Char → Option (List Char × List Char)
  | [] => Option.none
  | c :: cs =>
      match splitLastUS cs with
      | some p => some (c :: p.fst, p.snd)
      | Option.none => if c == '_' then some ([], cs) else Option.none

/-- Embedding of the reference regex of the Bold webhook
(`/^sub_(.+)_(\d+)$/`, line 258): after the literal `sub_` prefix, the
greedy `(.+)` group reaches to the last underscore whose suffix is a
nonempty digit run (a digit run contains no underscore, so an all-digit
suffix after any underscore makes that underscore the last one).  Returns
the email captured by group 1. -/
def parseSubRef (ref : String) : Option String :=
  match ref.data with
  | 's' :: 'u' :: 'b' :: '_' :: rest =>
      match splitLastUS rest with
      | some p =>
          if !p.fst.isEmpty && allDigits p.snd then some (String.mk p.fst) else Option.none
      | Option.none => Option.none
  | _ => Option.none

/-- `POST /webhooks/bold` of `part_003` (lines 252-272): parse the payment
reference back into an email; when it parses, ensure the record and, when
the reported status uppercases to `APPROVED`, set `subUntil = now + 30
days` and reset `used` to 0 (`u.used = 0` at line 266).  The endpoint
always answers `{ ok: true }`. -/
def webhookBold (m : Ledger3) (ref statusStr : String) (t : Nat) : Ledger3 × Resp :=
  match parseSubRef ref with
  | Option.none => (m, { status := 200, ok := some true })
  | some email =>
      let mu := ensureUser m email
      if strUpper statusStr == "APPROVED" then
        (mset mu.fst email ⟨0, addDays t SUBSCRIPTION_DAYS⟩, { status := 200, ok := some true })
      else (mu.fst, { status := 200, ok := some true })

/-! ## `part_002`: stateless trial-token variant -/

/-- `POST /api/ask` of `part_002` (lines 211-275), after
`requireTrialOrPaid` has decoded the token into `user`.  The decrement
`user.remaining -= 1` happens on the request-local payload before the
completion call; the refreshed token carrying the decremented value is
issued to the client (header `x-refresh-token`) only on the success path,
and the catch branches (429, 401/403 passthrough, 500) issue no token. -/
def ask2 (user : TrialUser) (message : String) (relay : RelayResult) : Resp :=
  if strTrim message == "" then
    { status := 400, ok := some false, reply := some "Escribe algo para empezar." }
  else if user.plan == "trial" && decide (user.remaining ≤ 0) then
    { status := 402, ok := some false,
      reply := some "Se agotaron tus 5 preguntas gratis. Suscríbete para seguir usando LINA." }
  else
    let user2 : TrialUser :=
      if user.plan == "trial" then ⟨user.uid, user.email, user.remaining - 1, user.plan⟩
      else user
    match relay with
    | RelayResult.err s =>
        let st := s.getD 500
        if st == 429 then
          { status := 429, ok := some false,
            reply := some "Estoy procesando muchas solicitudes o tu crédito se agotó. Intenta de nuevo." }
        else if st == 401 || st == 403 then
          { status := st, ok := some false,
            reply := some "No tengo permiso para acceder al modelo." }
        else
          { status := 500, ok := some false, reply := some "Hubo un problema. Intenta más tarde." }
    | RelayResult.ok text =>
        { status := 200, ok := some true, reply := some text,
          refreshTok := if user2.plan == "trial"
            then some ⟨user2.uid, user2.email, user2.remaining, "trial"⟩
            else Option.none }

/-! ## Iterated metered requests against `server.js` (for the exhaustion
scenario): a fresh trial user sends chat requests whose completion call
succeeds, each with a token that verifies. -/

/-- One successful metered `POST /api/ask` by the trial user `e` against the
`server.js` ledger (the counters inside the token payload are advisory and
unread, so the registration-time snapshot is fine). -/
def askMetered (secret e msg : String) (t : Nat) (m : LedgerS) : LedgerS :=
  (askServer (Cred.signed ⟨e, false, 5, 0⟩ secret (t + 1)) secret t m msg
    (RelayResult.ok "ok")).fst

/-- `n` successful metered requests in a row. -/
def askIter (secret e msg : String) (t : Nat) : Nat → LedgerS → LedgerS
  | 0, m => m
  | Nat.succ n, m => askIter secret e msg t n (askMetered secret e msg t m)

/-! # Theorems -/

/-! ## Association-list lemmas -/

theorem mget_mset_self {α : Type} (m : List (String × α)) (k : String) (v : α) :
    mget (mset m k v) k = some v := by
  induction m with
  | nil => simp [mget, mset]
  | cons p rest ih =>
      obtain ⟨k', v'⟩ := p
      by_cases h : k' = k
      · simp [mget, mset, h]
      · simp [mget, mset, h, ih]

theorem mget_mset_ne {α : Type} (m : List (String × α)) (k k' : String) (v : α)
    (h : k ≠ k') : mget (mset m k v) k' = mget m k' := by
  induction m with
  | nil => simp [mget, mset, h]
  | cons p rest ih =>
      obtain ⟨k'', v''⟩ := p
      by_cases h2 : k'' = k
      · simp [mget, mset, h2, h]
      · simp [mget, mset, h2, ih]

theorem mset_eq_of_mget {α : Type} (m : List (String × α)) (k : String) (v : α)
    (h : mget m k = some v) : mset m k v = m := by
  induction m with
  | nil => simp [mget] at h
  | cons p rest ih =>
      obtain ⟨k', v'⟩ := p
      by_cases h2 : k' = k
      · simp [mget, h2] at h
        simp [mset, h2, h]
      · simp [mget, h2] at h
        simp [mset, h2, ih h]

theorem mget_mset_cases {α : Type} (m : List (String × α)) (k k' : String) (v u : α)
    (h : mget (mset m k v) k' = some u) :
    (k' = k ∧ u = v) ∨ mget m k' = some u := by
  by_cases hk : k = k'
  · subst hk
    rw [mget_mset_self] at h
    exact Or.inl ⟨rfl, (Option.some.injEq _ _ ▸ h).symm⟩
  · rw [mget_mset_ne m k k' v hk] at h
    exact Or.inr h

/-! ## Lemmas about registration and admission in `server.js` -/

theorem normalizeEmail_ne_empty {e : String}
    (hs : emailShape (normalizeEmail e) = true) : normalizeEmail e ≠ "" := by
  intro h
  rw [h] at hs
  exact absurd hs (by decide)

theorem registerTrial_fresh (m : LedgerS) (e : String)
    (hs : emailShape (normalizeEmail e) = true)
    (hf : mget m (normalizeEmail e) = Option.none) :
    registerTrial m e =
      (mset m (normalizeEmail e) ⟨normalizeEmail e, false, 5, 0⟩,
       regRespS ⟨normalizeEmail e, false, 5, 0⟩) := by
  have hne := normalizeEmail_ne_empty hs
  simp [registerTrial, hs, hf, hne]

theorem registerTrial_existing (m : LedgerS) (e : String) (u : UserRec)
    (hs : emailShape (normalizeEmail e) = true)
    (hu : mget m (normalizeEmail e) = some u) :
    registerTrial m e = (m, regRespS u) := by
  have hne := normalizeEmail_ne_empty hs
  simp [registerTrial, hs, hu, hne]

theorem authCheck_signed_self {π : Type} (p : π) (secret : String) (t : Nat) :
    authCheck (Cred.signed p secret (t + 1)) secret t = some p := by
  simp [authCheck]

theorem askServer_paywall (c : Cred JwtPayload) (secret : String) (t : Nat)
    (m : LedgerS) (msg : String) (relay : RelayResult) (p : JwtPayload) (u : UserRec)
    (hauth : authCheck c secret t = some p)
    (hu : mget m p.email = some u)
    (hmsg : strTrim msg ≠ "")
    (hpaid : u.paid = false)
    (hq : u.quota ≤ u.used) :
    askServer c secret t m msg relay = (m, paywallRespS) := by
  simp [askServer, hauth, hu, hmsg, hpaid, hq]

theorem askServer_ok_metered (c : Cred JwtPayload) (secret : String) (t : Nat)
    (m : LedgerS) (msg text : String) (p : JwtPayload) (u : UserRec)
    (hauth : authCheck c secret t = some p)
    (hu : mget m p.email = some u)
    (hmsg : strTrim msg ≠ "")
    (hpaid : u.paid = false)
    (hq : u.used < u.quota) :
    askServer c secret t m msg (RelayResult.ok text) =
      (mset m p.email ⟨u.email, false, u.quota, u.used + 1⟩,
       { status := 200, ok := some true, reply := some text,
         remaining := some (u.quota - (u.used + 1)),
         tok := some ⟨u.email, false, u.quota, u.used + 1⟩ }) := by
  have hq2 : ¬ (u.quota ≤ u.used) := Nat.not_le.mpr hq
  simp [askServer, hauth, hu, hmsg, hpaid, hq2]

theorem askServer_err (c : Cred JwtPayload) (secret : String) (t : Nat)
    (m : LedgerS) (msg : String) (s : Option Nat) :
    (askServer c secret t m msg (RelayResult.err s)).fst = m ∧
    (askServer c secret t m msg (RelayResult.err s)).snd.status ≠ 200 := by
  rcases hA : authCheck c secret t with _ | p
  · constructor
    · simp [askServer, hA]
    · simp only [askServer, hA]
      cases c <;> simp [authFailResp]
  · rcases hU : mget m p.email with _ | u
    · constructor <;> simp [askServer, hA, hU]
    · by_cases hM : strTrim msg = ""
      · constructor <;> simp [askServer, hA, hU, hM]
      · by_cases hQ : (!u.paid && decide (u.quota ≤ u.used)) = true
        · constructor <;> simp [askServer, hA, hU, hM, hQ, paywallRespS]
        · by_cases h4 : s.getD 500 = 429
          · constructor <;> simp [askServer, hA, hU, hM, hQ, h4]
          · constructor <;> simp [askServer, hA, hU, hM, hQ, h4]

theorem ask2_err_refreshTok (user : TrialUser) (msg : String) (s : Option Nat) :
    (ask2 user msg (RelayResult.err s)).refreshTok = Option.none := by
  unfold ask2
  split
  · rfl
  · split
    · rfl
    · dsimp only
      split
      · rfl
      · split
        · rfl
        · rfl

theorem ask2_ok_trial (user : TrialUser) (msg text : String)
    (hplan : user.plan = "trial") (hmsg : strTrim msg ≠ "")
    (hrem : 0 < user.remaining) :
    ask2 user msg (RelayResult.ok text) =
      { status := 200, ok := some true, reply := some text,
        refreshTok := some ⟨user.uid, user.email, user.remaining - 1, "trial"⟩ } := by
  have hr : ¬ (user.remaining ≤ 0) := not_le.mpr hrem
  simp [ask2, hmsg, hplan, hr]

/-! ## Claim theorems -/

/-- C6: registration in `server.js` is idempotent: registering any spelling
`e2` of an identity already present under its normalized email returns the
current state of the existing record (remaining not reset) and does not
mutate the ledger; since the map is keyed by the normalized email, all
spelling variants address the one record per normalized identity. -/
theorem register_idempotent (m : LedgerS) (e e2 : String) (u : UserRec)
    (hnorm : normalizeEmail e2 = normalizeEmail e)
    (hs : emailShape (normalizeEmail e) = true)
    (hu : mget m (normalizeEmail e) = some u) :
    (registerTrial m e2).fst = m ∧
    (registerTrial m e2).snd.status = 200 ∧
    (registerTrial m e2).snd.remaining = some (u.quota - u.used) ∧
    (registerTrial m e2).snd.used = some u.used := by
  have h := registerTrial_existing m e2 u (by rwa [hnorm]) (by rwa [hnorm])
  rw [h]
  exact ⟨rfl, rfl, rfl, rfl⟩

/-- Witness for C6: the spec scenario — a record for `user@example.com`
with 2 questions used; registering the variant spelling leaves the ledger
untouched and reports remaining 3, used 2. -/
theorem register_idempotent_witness :
    (registerTrial [("user@example.com", ⟨"user@example.com", false, 5, 2⟩)]
        " User@Example.com ").fst
      = [("user@example.com", ⟨"user@example.com", false, 5, 2⟩)] ∧
    (registerTrial [("user@example.com", ⟨"user@example.com", false, 5, 2⟩)]
        " User@Example.com ").snd.status = 200 ∧
    (registerTrial [("user@example.com", ⟨"user@example.com", false, 5, 2⟩)]
        " User@Example.com ").snd.remaining = some (5 - 2) ∧
    (registerTrial [("user@example.com", ⟨"user@example.com", false, 5, 2⟩)]
        " User@Example.com ").snd.used = some 2 :=
  register_idempotent [("user@example.com", ⟨"user@example.com", false, 5, 2⟩)]
    "user@example.com" " User@Example.com " ⟨"user@example.com", false, 5, 2⟩
    (by decide) (by decide) (by decide)

/-- C7: immediately after the first registration of an identity, the
response reports the full free quota remaining and an unsubscribed state:
in `server.js` `remaining = quota = 5` and `paid = false`; in `part_003`
`remaining = FREE_QUOTA` and `subscribed = false`. -/
theorem fresh_register_state (m : LedgerS) (m3 : Ledger3) (e e3 : String) (t : Nat)
    (hs : emailShape (normalizeEmail e) = true)
    (hf : mget m (normalizeEmail e) = Option.none)
    (hne3 : normalizeEmail e3 ≠ "")
    (hat3 : strHasChar (normalizeEmail e3) '@' = true)
    (hf3 : mget m3 (normalizeEmail e3) = Option.none) :
    (registerTrial m e).snd.status = 200 ∧
    (registerTrial m e).snd.remaining = some 5 ∧
    (registerTrial m e).snd.quota = some 5 ∧
    (registerTrial m e).snd.paid = some false ∧
    (register3 m3 e3 t).snd.status = 200 ∧
    (register3 m3 e3 t).snd.subscribed = some false ∧
    (register3 m3 e3 t).snd.remaining = some FREE_QUOTA ∧
    (register3 m3 e3 t).snd.quota = some FREE_QUOTA := by
  rw [registerTrial_fresh m e hs hf]
  refine ⟨rfl, rfl, rfl, rfl, ?_, ?_, ?_, ?_⟩ <;>
    simp [register3, hne3, hat3, hf3, ensureUser, isSubscribed, remainingFree]

/-- Witness for C7: fresh registrations on empty ledgers. -/
theorem fresh_register_state_witness :
    (registerTrial [] "a@b.c").snd.status = 200 ∧
    (registerTrial [] "a@b.c").snd.remaining = some 5 ∧
    (registerTrial [] "a@b.c").snd.quota = some 5 ∧
    (registerTrial [] "a@b.c").snd.paid = some false ∧
    (register3 [] "x@y" 7).snd.status = 200 ∧
    (register3 [] "x@y" 7).snd.subscribed = some false ∧
    (register3 [] "x@y" 7).snd.remaining = some FREE_QUOTA ∧
    (register3 [] "x@y" 7).snd.quota = some FREE_QUOTA :=
  fresh_register_state [] [] "a@b.c" "x@y" 7 (by decide) (by decide)
    (by decide) (by decide) (by decide)

/-- C9: admission is fail-closed in `server.js`: whenever the credential
fails verification (missing, malformed, wrong secret or expired), the ask
endpoint answers 401, the ledger is returned untouched, and the response is
computed from the credential alone — the conclusion holds for every ledger,
message and relay outcome, so no ledger access or default identity is
involved. -/
theorem auth_fail_closed (c : Cred JwtPayload) (secret : String) (t : Nat)
    (h : authCheck c secret t = Option.none) :
    ∀ (m : LedgerS) (msg : String) (relay : RelayResult),
      askServer c secret t m msg relay = (m, authFailResp c) ∧
      (authFailResp c).status = 401 := by
  intro m msg relay
  refine ⟨?_, ?_⟩
  · unfold askServer
    rw [h]
  · cases c <;> rfl

/-- Witness for C9: a request with no Authorization header at all. -/
theorem auth_fail_closed_witness :
    askServer (Cred.missing : Cred JwtPayload) "sec" 0
        [("a@b.c", ⟨"a@b.c", false, 5, 0⟩)] "hola" (RelayResult.ok "hi")
      = ([("a@b.c", ⟨"a@b.c", false, 5, 0⟩)],
         authFailResp (Cred.missing : Cred JwtPayload)) ∧
    (authFailResp (Cred.missing : Cred JwtPayload)).status = 401 :=
  auth_fail_closed Cred.missing "sec" 0 rfl
    [("a@b.c", ⟨"a@b.c", false, 5, 0⟩)] "hola" (RelayResult.ok "hi")

/-- C10: in the JWT-plus-Ledger variant (`server.js`), a request whose
completion call fails leaves the ledger exactly as it was — the counter
increment sits after the `await`, and every catch branch answers without
touching the user record — and the response is never the success shape. -/
theorem upstream_error_preserves_ledger (c : Cred JwtPayload) (secret : String)
    (t : Nat) (m : LedgerS) (msg : String) (s : Option Nat) :
    (askServer c secret t m msg (RelayResult.err s)).fst = m ∧
    (askServer c secret t m msg (RelayResult.err s)).snd.status ≠ 200 :=
  askServer_err c secret t m msg s

/-! ## The quota invariant of `server.js` -/

theorem InvS_mset (m : LedgerS) (k : String) (v : UserRec)
    (hm : InvS m) (hv : v.used ≤ v.quota) : InvS (mset m k v) := by
  intro k2 u h
  rcases mget_mset_cases m k k2 v u h with ⟨_, rfl⟩ | h2
  · exact hv
  · exact hm k2 u h2

theorem registerTrial_preserves (m : LedgerS) (e : String) (hm : InvS m) :
    InvS (registerTrial m e).fst := by
  by_cases hc : (normalizeEmail e == "" || !emailShape (normalizeEmail e)) = true
  · simpa [registerTrial, hc] using hm
  · rcases hu : mget m (normalizeEmail e) with _ | u
    · have hstep : (registerTrial m e).fst
          = mset m (normalizeEmail e) ⟨normalizeEmail e, false, 5, 0⟩ := by
        simp [registerTrial, hc, hu]
      rw [hstep]
      exact InvS_mset m _ _ hm (Nat.zero_le 5)
    · have hstep : (registerTrial m e).fst = m := by
        simp [registerTrial, hc, hu]
      rwa [hstep]

theorem askServer_preserves (c : Cred JwtPayload) (secret : String) (t : Nat)
    (m : LedgerS) (msg : String) (relay : RelayResult) (hm : InvS m) :
    InvS (askServer c secret t m msg relay).fst := by
  rcases hA : authCheck c secret t with _ | p
  · simpa [askServer, hA] using hm
  · rcases hU : mget m p.email with _ | u
    · simpa [askServer, hA, hU] using hm
    · by_cases hM : strTrim msg = ""
      · simpa [askServer, hA, hU, hM] using hm
      · by_cases hQ : (!u.paid && decide (u.quota ≤ u.used)) = true
        · simpa [askServer, hA, hU, hM, hQ] using hm
        · cases relay with
          | err s =>
              rw [(askServer_err c secret t m msg s).left]
              exact hm
          | ok text =>
              by_cases hp : u.paid = true
              · have hstep : (askServer c secret t m msg (RelayResult.ok text)).fst
                    = mset m p.email u := by
                  simp [askServer, hA, hU, hM, hQ, hp]
                rw [hstep]
                exact InvS_mset m p.email u hm (hm p.email u hU)
              · have hp2 : u.paid = false := by
                  cases hb : u.paid
                  · rfl
                  · exact absurd hb hp
                have hlt : u.used < u.quota := by
                  by_contra hge
                  exact hQ (by simp [hp2, Nat.le_of_not_lt hge])
                have hq2 : ¬ (u.quota ≤ u.used) := Nat.not_le.mpr hlt
                have hstep : (askServer c secret t m msg (RelayResult.ok text)).fst
                    = mset m p.email ⟨u.email, false, u.quota, u.used + 1⟩ := by
                  simp [askServer, hA, hU, hM, hp2, hq2]
                rw [hstep]
                exact InvS_mset m p.email _ hm (Nat.succ_le_of_lt hlt)

theorem stepS_preserves (secret : String) (m : LedgerS) (op : OpS) (hm : InvS m) :
    InvS (stepS secret m op) := by
  cases op with
  | reg e => exact registerTrial_preserves m e hm
  | login e => exact registerTrial_preserves m e hm
  | ask c t msg relay => exact askServer_preserves c secret t m msg relay hm

theorem runS_preserves (secret : String) (ops : List OpS) (m : LedgerS)
    (hm : InvS m) : InvS (runS secret m ops) := by
  induction ops generalizing m with
  | nil => exact hm
  | cons op ops ih => exact ih _ (stepS_preserves secret m op hm)

/-- C1: under any sequence of registrations, logins and chat requests
against the `server.js` ledger, no (never-paid) record ever exceeds its
quota — the invariant `used ≤ quota` is preserved by every operation — and
a chat request arriving for an unpaid record with `used ≥ quota` is denied
without any ledger change (402 paywall when the message is non-empty,
400 otherwise), before the completion call could matter; the analogous
exhausted request in `part_003` (unsubscribed, no free questions left) is
likewise denied with the paywall body and an unchanged ledger. -/
theorem quota_invariant_serverjs (secret : String) (m : LedgerS) (ops : List OpS)
    (hm : InvS m) :
    InvS (runS secret m ops) ∧
    (∀ (c : Cred JwtPayload) (t : Nat) (msg : String) (relay : RelayResult)
        (p : JwtPayload) (u : UserRec),
      authCheck c secret t = some p → mget m p.email = some u →
      u.paid = false → u.quota ≤ u.used →
      (askServer c secret t m msg relay).fst = m ∧
      (strTrim msg ≠ "" → askServer c secret t m msg relay = (m, paywallRespS))) ∧
    (∀ (m3 : Ledger3) (e msg : String) (t1 t2 : Nat) (relay : RelayResult) (u : U3),
      mget m3 e = some u → isSubscribed u t1 = false → remainingFree u = 0 →
      ask3 m3 e msg t1 t2 relay = (m3, paywallResp3)) := by
  refine ⟨runS_preserves secret ops m hm, ?_, ?_⟩
  · intro c t msg relay p u hauth hu hpaid hq
    constructor
    · by_cases hM : strTrim msg = ""
      · simp [askServer, hauth, hu, hM]
      · rw [askServer_paywall c secret t m msg relay p u hauth hu hM hpaid hq]
    · intro hM
      exact askServer_paywall c secret t m msg relay p u hauth hu hM hpaid hq
  · intro m3 e msg t1 t2 relay u hu hsub hrem
    simp [ask3, ensureUser, hu, hsub, hrem]

/-- Witness for C1: a register followed by one successful metered ask from
the empty ledger keeps the invariant. -/
theorem quota_invariant_serverjs_witness :
    InvS (runS "sec" [] [OpS.reg "a@b.c",
      OpS.ask (Cred.signed ⟨"a@b.c", false, 5, 0⟩ "sec" 2) 1 "hola"
        (RelayResult.ok "hi")]) :=
  (quota_invariant_serverjs "sec" [] [OpS.reg "a@b.c",
      OpS.ask (Cred.signed ⟨"a@b.c", false, 5, 0⟩ "sec" 2) 1 "hola"
        (RelayResult.ok "hi")]
    (fun k u h => by simp [mget] at h)).left

/-! ## Exhaustion of the free quota in `server.js` -/

theorem askMetered_step (secret e msg : String) (t : Nat) (m : LedgerS) (n : Nat)
    (hu : mget m e = some ⟨e, false, 5, n⟩) (hn : n < 5)
    (hmsg : strTrim msg ≠ "") :
    askMetered secret e msg t m = mset m e ⟨e, false, 5, n + 1⟩ := by
  unfold askMetered
  rw [askServer_ok_metered (Cred.signed ⟨e, false, 5, 0⟩ secret (t + 1)) secret t m
    msg "ok" ⟨e, false, 5, 0⟩ ⟨e, false, 5, n⟩ (authCheck_signed_self _ _ _) hu hmsg
    rfl hn]

/-- C3: from a fresh registration, five successful metered requests drive the
used counter to the full quota of 5; the next request — whatever the relay
would have answered — is denied with the 402 `trial_exhausted` body (distinct
from the 401 and 500 statuses) and the ledger is returned unchanged, so any
number of repeated denied attempts leaves the counter at 5. -/
theorem trial_exhaustion (secret e msg : String) (t : Nat) (m0 : LedgerS)
    (hs : emailShape (normalizeEmail e) = true)
    (hf : mget m0 (normalizeEmail e) = Option.none)
    (hmsg : strTrim msg ≠ "") :
    mget (askIter secret (normalizeEmail e) msg t 5 (registerTrial m0 e).fst)
        (normalizeEmail e) = some ⟨normalizeEmail e, false, 5, 5⟩ ∧
    (∀ relay, askServer (Cred.signed ⟨normalizeEmail e, false, 5, 0⟩ secret (t + 1))
        secret t (askIter secret (normalizeEmail e) msg t 5 (registerTrial m0 e).fst)
        msg relay
      = (askIter secret (normalizeEmail e) msg t 5 (registerTrial m0 e).fst,
         paywallRespS)) ∧
    paywallRespS.status = 402 ∧ paywallRespS.code = some "trial_exhausted" ∧
    paywallRespS.status ≠ 401 ∧ paywallRespS.status ≠ 500 := by
  have h1 : (registerTrial m0 e).fst
      = mset m0 (normalizeEmail e) ⟨normalizeEmail e, false, 5, 0⟩ := by
    rw [registerTrial_fresh m0 e hs hf]
  set k := normalizeEmail e with hk
  have g1 : mget (registerTrial m0 e).fst k = some ⟨k, false, 5, 0⟩ := by
    rw [h1]; exact mget_mset_self _ _ _
  have s1 := askMetered_step secret k msg t (registerTrial m0 e).fst 0 g1 (by decide) hmsg
  have g2 : mget (askMetered secret k msg t (registerTrial m0 e).fst) k
      = some ⟨k, false, 5, 1⟩ := by rw [s1]; exact mget_mset_self _ _ _
  have s2 := askMetered_step secret k msg t _ 1 g2 (by decide) hmsg
  have g3 : mget (askMetered secret k msg t
      (askMetered secret k msg t (registerTrial m0 e).fst)) k
      = some ⟨k, false, 5, 2⟩ := by rw [s2]; exact mget_mset_self _ _ _
  have s3 := askMetered_step secret k msg t _ 2 g3 (by decide) hmsg
  have g4 : mget (askMetered secret k msg t (askMetered secret k msg t
      (askMetered secret k msg t (registerTrial m0 e).fst))) k
      = some ⟨k, false, 5, 3⟩ := by rw [s3]; exact mget_mset_self _ _ _
  have s4 := askMetered_step secret k msg t _ 3 g4 (by decide) hmsg
  have g5 : mget (askMetered secret k msg t (askMetered secret k msg t
      (askMetered secret k msg t (askMetered secret k msg t
      (registerTrial m0 e).fst)))) k
      = some ⟨k, false, 5, 4⟩ := by rw [s4]; exact mget_mset_self _ _ _
  have s5 := askMetered_step secret k msg t _ 4 g5 (by decide) hmsg
  have g6 : mget (askMetered secret k msg t (askMetered secret k msg t
      (askMetered secret k msg t (askMetered secret k msg t (askMetered secret k
      msg t (registerTrial m0 e).fst))))) k
      = some ⟨k, false, 5, 5⟩ := by rw [s5]; exact mget_mset_self _ _ _
  have hiter : askIter secret k msg t 5 (registerTrial m0 e).fst
      = askMetered secret k msg t (askMetered secret k msg t (askMetered secret k
        msg t (askMetered secret k msg t (askMetered secret k msg t
        (registerTrial m0 e).fst)))) := rfl
  refine ⟨by rw [hiter]; exact g6, ?_, rfl, rfl, by decide, by decide⟩
  intro relay
  rw [hiter]
  exact askServer_paywall _ secret t _ msg relay ⟨k, false, 5, 0⟩ ⟨k, false, 5, 5⟩
    (authCheck_signed_self _ _ _) g6 hmsg rfl (Nat.le_refl 5)

/-- Witness for C3: the concrete exhaustion run for `a@b.c`. -/
theorem trial_exhaustion_witness :
    mget (askIter "sec" (normalizeEmail "a@b.c") "hola" 0 5
        (registerTrial [] "a@b.c").fst) (normalizeEmail "a@b.c")
      = some ⟨normalizeEmail "a@b.c", false, 5, 5⟩ ∧
    (∀ relay, askServer (Cred.signed ⟨normalizeEmail "a@b.c", false, 5, 0⟩ "sec" (0 + 1))
        "sec" 0 (askIter "sec" (normalizeEmail "a@b.c") "hola" 0 5
          (registerTrial [] "a@b.c").fst) "hola" relay
      = (askIter "sec" (normalizeEmail "a@b.c") "hola" 0 5
          (registerTrial [] "a@b.c").fst, paywallRespS)) ∧
    paywallRespS.status = 402 ∧ paywallRespS.code = some "trial_exhausted" ∧
    paywallRespS.status ≠ 401 ∧ paywallRespS.status ≠ 500 :=
  trial_exhaustion "sec" "a@b.c" "hola" 0 [] (by decide) (by decide) (by decide)

/-! ## Subscription bypassing the quota in `part_003` -/

theorem ask3_subscribed (m : Ledger3) (e msg txt : String) (u : U3) (t1 t2 : Nat)
    (hu : mget m e = some u) (hmsg : strTake msg 4000 ≠ "")
    (h1 : t1 < u.subUntil) (h2 : t2 < u.subUntil) :
    ask3 m e msg t1 t2 (RelayResult.ok txt) =
      (m, { status := 200, ok := some true, reply := some txt,
            remaining := some (remainingFree u), subscribed := some true }) := by
  have hmm := mset_eq_of_mget m e u hu
  simp [ask3, ensureUser, hu, isSubscribed, h1, h2, hmsg, hmm]

/-- C4: a chat request by a subscribed identity (`subUntil` still in the
future at both clock reads of the handler) is admitted with status 200 and
is unmetered — the ledger record is written back unchanged; in particular,
activating a subscription via the mock payment endpoint for an identity with
any prior `used` (including a fully exhausted one) makes the very next
request allowed, reported as subscribed, with `used` untouched. -/
theorem subscription_bypasses_quota (m : Ledger3) (e msg txt : String) (u : U3)
    (t0 t1 t2 : Nat)
    (hu : mget m e = some u) (h12 : t1 ≤ t2)
    (hmsg : strTake msg 4000 ≠ "")
    (hexp : t2 < addDays t0 SUBSCRIPTION_DAYS) :
    (ask3 (subscribeMock m e t0).fst e msg t1 t2 (RelayResult.ok txt)).snd.status
      = 200 ∧
    (ask3 (subscribeMock m e t0).fst e msg t1 t2 (RelayResult.ok txt)).snd.subscribed
      = some true ∧
    mget (ask3 (subscribeMock m e t0).fst e msg t1 t2 (RelayResult.ok txt)).fst e
      = some ⟨u.used, addDays t0 SUBSCRIPTION_DAYS⟩ ∧
    (t2 < u.subUntil →
      (ask3 m e msg t1 t2 (RelayResult.ok txt)).fst = m ∧
      (ask3 m e msg t1 t2 (RelayResult.ok txt)).snd.status = 200) := by
  have hsm : (subscribeMock m e t0).fst
      = mset m e ⟨u.used, addDays t0 SUBSCRIPTION_DAYS⟩ := by
    simp [subscribeMock, ensureUser, hu]
  have hu2 : mget (subscribeMock m e t0).fst e
      = some ⟨u.used, addDays t0 SUBSCRIPTION_DAYS⟩ := by
    rw [hsm]; exact mget_mset_self _ _ _
  have hask := ask3_subscribed (subscribeMock m e t0).fst e msg txt
    ⟨u.used, addDays t0 SUBSCRIPTION_DAYS⟩ t1 t2 hu2 hmsg
    (lt_of_le_of_lt h12 hexp) hexp
  refine ⟨by rw [hask], by rw [hask], by rw [hask]; exact hu2, ?_⟩
  intro hsub
  have hask2 := ask3_subscribed m e msg txt u t1 t2 hu hmsg
    (lt_of_le_of_lt h12 hsub) hsub
  exact ⟨by rw [hask2], by rw [hask2]⟩

/-- Witness for C4: an exhausted record (`used = 5`, never subscribed) is
subscribed at time 0 and asks at clock reads 1 and 2. -/
theorem subscription_bypasses_quota_witness :
    (ask3 (subscribeMock [("a@b", (⟨5, 0⟩ : U3))] "a@b" 0).fst "a@b" "hola" 1 2
        (RelayResult.ok "hi")).snd.status = 200 ∧
    (ask3 (subscribeMock [("a@b", (⟨5, 0⟩ : U3))] "a@b" 0).fst "a@b" "hola" 1 2
        (RelayResult.ok "hi")).snd.subscribed = some true ∧
    mget (ask3 (subscribeMock [("a@b", (⟨5, 0⟩ : U3))] "a@b" 0).fst "a@b" "hola" 1 2
        (RelayResult.ok "hi")).fst "a@b" = some ⟨5, addDays 0 SUBSCRIPTION_DAYS⟩ ∧
    (2 < (0 : Nat) →
      (ask3 [("a@b", (⟨5, 0⟩ : U3))] "a@b" "hola" 1 2 (RelayResult.ok "hi")).fst
        = [("a@b", (⟨5, 0⟩ : U3))] ∧
      (ask3 [("a@b", (⟨5, 0⟩ : U3))] "a@b" "hola" 1 2 (RelayResult.ok "hi")).snd.status
        = 200) :=
  subscription_bypasses_quota [("a@b", ⟨5, 0⟩)] "a@b" "hola" "hi" ⟨5, 0⟩ 0 1 2
    (by decide) (by decide) (by decide) (by decide)

/-! ## Subscription activation effects in `part_003` (C5) -/

/-- C5 counterexample: the Bold webhook on an APPROVED payment for a record
with `used = 3` resets the counter to 0 — the used counter after activation
is not the counter before it. -/
theorem webhook_resets_used_counterexample :
    (mget (webhookBold [("x@y.co", (⟨3, 0⟩ : U3))] "sub_x@y.co_7" "APPROVED" 0).fst
        "x@y.co").map U3.used = some 0 ∧
    ¬ ((mget (webhookBold [("x@y.co", (⟨3, 0⟩ : U3))] "sub_x@y.co_7" "APPROVED" 0).fst
        "x@y.co").map U3.used = some 3) := by decide

/-- C5 (amended): both activation paths set `subUntil = now + 30 days`; the
mock subscription endpoint leaves `used` unchanged, but the Bold webhook on
an APPROVED status resets `used` to 0. -/
theorem activate_subscription_effect (m : Ledger3) (e ref statusStr : String)
    (u : U3) (t : Nat)
    (hu : mget m e = some u) (href : parseSubRef ref = some e)
    (happ : strUpper statusStr = "APPROVED") :
    mget (subscribeMock m e t).fst e = some ⟨u.used, addDays t SUBSCRIPTION_DAYS⟩ ∧
    (subscribeMock m e t).snd.subUntil = some (addDays t SUBSCRIPTION_DAYS) ∧
    mget (webhookBold m ref statusStr t).fst e
      = some ⟨0, addDays t SUBSCRIPTION_DAYS⟩ := by
  refine ⟨?_, ?_, ?_⟩
  · simp [subscribeMock, ensureUser, hu, mget_mset_self]
  · simp [subscribeMock, ensureUser, hu]
  · simp [webhookBold, href, ensureUser, hu, happ, mget_mset_self]

/-- Witness for C5: concrete activation for `x@y.co`, used 3. -/
theorem activate_subscription_effect_witness :
    mget (subscribeMock [("x@y.co", (⟨3, 0⟩ : U3))] "x@y.co" 0).fst "x@y.co"
      = some ⟨3, addDays 0 SUBSCRIPTION_DAYS⟩ ∧
    (subscribeMock [("x@y.co", (⟨3, 0⟩ : U3))] "x@y.co" 0).snd.subUntil
      = some (addDays 0 SUBSCRIPTION_DAYS) ∧
    mget (webhookBold [("x@y.co", (⟨3, 0⟩ : U3))] "sub_x@y.co_7" "APPROVED" 0).fst
        "x@y.co" = some ⟨0, addDays 0 SUBSCRIPTION_DAYS⟩ :=
  activate_subscription_effect [("x@y.co", ⟨3, 0⟩)] "x@y.co" "sub_x@y.co_7"
    "APPROVED" ⟨3, 0⟩ 0 (by decide) (by decide) (by decide)

/-! ## Charging point of quota consumption (C2) -/

/-- C2 counterexample: an admitted metered request in `server.js` whose
completion call fails leaves `used` at 0 — nothing was charged at
admission, so there is no decremented count that could remain uncharged. -/
theorem charge_at_admission_counterexample :
    (askServer (Cred.signed ⟨"a@b.c", false, 5, 0⟩ "sec" 2) "sec" 1
        [("a@b.c", ⟨"a@b.c", false, 5, 0⟩)] "hola"
        (RelayResult.err Option.none)).snd.status = 500 ∧
    (mget (askServer (Cred.signed ⟨"a@b.c", false, 5, 0⟩ "sec" 2) "sec" 1
        [("a@b.c", ⟨"a@b.c", false, 5, 0⟩)] "hola"
        (RelayResult.err Option.none)).fst "a@b.c").map UserRec.used = some 0 ∧
    ¬ ((mget (askServer (Cred.signed ⟨"a@b.c", false, 5, 0⟩ "sec" 2) "sec" 1
        [("a@b.c", ⟨"a@b.c", false, 5, 0⟩)] "hola"
        (RelayResult.err Option.none)).fst "a@b.c").map UserRec.used = some 1) := by
  decide

/-- C2 (amended): quota consumption is charged at successful completion,
not at admission.  In the Ledger variant (`server.js`), an admitted metered
request increments `used` exactly when the relay returns, and a relay
failure after admission leaves the ledger unchanged.  In the stateless
variant (`part_002`), the request-local decrement reaches the client only
through the refreshed token issued on success; every failure branch issues
no token. -/
theorem charge_on_success (c : Cred JwtPayload) (secret : String) (t : Nat)
    (m : LedgerS) (msg : String) (p : JwtPayload) (u : UserRec) (user : TrialUser)
    (hauth : authCheck c secret t = some p)
    (hu : mget m p.email = some u)
    (hmsg : strTrim msg ≠ "")
    (hpaid : u.paid = false)
    (hq : u.used < u.quota)
    (hplan : user.plan = "trial")
    (hrem : 0 < user.remaining) :
    (∀ text, mget (askServer c secret t m msg (RelayResult.ok text)).fst p.email
        = some ⟨u.email, false, u.quota, u.used + 1⟩) ∧
    (∀ s, (askServer c secret t m msg (RelayResult.err s)).fst = m) ∧
    (∀ s, (ask2 user msg (RelayResult.err s)).refreshTok = Option.none) ∧
    (∀ text, (ask2 user msg (RelayResult.ok text)).refreshTok
        = some ⟨user.uid, user.email, user.remaining - 1, "trial"⟩) := by
  refine ⟨?_, ?_, ?_, ?_⟩
  · intro text
    rw [askServer_ok_metered c secret t m msg text p u hauth hu hmsg hpaid hq]
    exact mget_mset_self _ _ _
  · intro s
    exact (askServer_err c secret t m msg s).left
  · intro s
    exact ask2_err_refreshTok user msg s
  · intro text
    rw [ask2_ok_trial user msg text hplan hmsg hrem]

/-- Witness for C2: concrete fresh trial user in both variants. -/
theorem charge_on_success_witness :
    (∀ text, mget (askServer (Cred.signed ⟨"a@b.c", false, 5, 0⟩ "sec" 2) "sec" 1
        [("a@b.c", ⟨"a@b.c", false, 5, 0⟩)] "hola" (RelayResult.ok text)).fst "a@b.c"
        = some ⟨"a@b.c", false, 5, 1⟩) ∧
    (∀ s, (askServer (Cred.signed ⟨"a@b.c", false, 5, 0⟩ "sec" 2) "sec" 1
        [("a@b.c", ⟨"a@b.c", false, 5, 0⟩)] "hola" (RelayResult.err s)).fst
        = [("a@b.c", ⟨"a@b.c", false, 5, 0⟩)]) ∧
    (∀ s, (ask2 ⟨"u_1", "a@b.c", 3, "trial"⟩ "hola" (RelayResult.err s)).refreshTok
        = Option.none) ∧
    (∀ text, (ask2 ⟨"u_1", "a@b.c", 3, "trial"⟩ "hola" (RelayResult.ok text)).refreshTok
        = some ⟨"u_1", "a@b.c", 2, "trial"⟩) :=
  charge_on_success (Cred.signed ⟨"a@b.c", false, 5, 0⟩ "sec" 2) "sec" 1
    [("a@b.c", ⟨"a@b.c", false, 5, 0⟩)] "hola" ⟨"a@b.c", false, 5, 0⟩
    ⟨"a@b.c", false, 5, 0⟩ ⟨"u_1", "a@b.c", 3, "trial"⟩
    (by decide) (by decide) (by decide) (by decide) (by decide) (by decide) (by decide)

/-! ## Email validation on registration (C8) -/

/-- C8 counterexample: `part_003` accepts the dotless address `a@b` —
which does not match the local-part "@" domain-with-dot shape — with
status 200 and creates a ledger record for it. -/
theorem lenient_email_check_counterexample :
    (register3 [] "a@b" 0).snd.status = 200 ∧
    mget (register3 [] "a@b" 0).fst "a@b" = some (⟨0, 0⟩ : U3) ∧
    emailShape "a@b" = false ∧ normalizeEmail "a@b" = "a@b" := by decide

/-- C8 (amended): in `server.js`, any input whose normalized form fails the
local-part "@" domain-with-dot shape is rejected with the 400 body and no
ledger change (so only shape-matching emails ever create a record there);
in `part_003`, the check is only that the normalized email is nonempty and
contains an at sign, and inputs failing that are rejected with its 400 body
and no ledger change. -/
theorem email_validation (m : LedgerS) (m3 : Ledger3) (e : String) (t : Nat) :
    (emailShape (normalizeEmail e) = false →
      registerTrial m e = (m, emailInvalidRespS)) ∧
    ((normalizeEmail e = "" ∨ strHasChar (normalizeEmail e) '@' = false) →
      register3 m3 e t = (m3, emailInvalidResp3)) := by
  constructor
  · intro h
    simp [registerTrial, h]
  · intro h
    rcases h with h | h
    · simp [register3, h]
    · simp [register3, h]

/-- Witness for C8: the malformed input from the spec scenario, rejected by
both registration endpoints. -/
theorem email_validation_witness :
    registerTrial [] "not-an-email" = ([], emailInvalidRespS) ∧
    register3 [] "not-an-email" 0 = ([], emailInvalidResp3) :=
  ⟨(email_validation [] [] "not-an-email" 0).left (by decide),
   (email_validation [] [] "not-an-email" 0).right (Or.inr (by decide))⟩
